import Mathlib

/-!
Verification of the data-acquisition layer of checkmk: the Source / Fetcher /
FileCache composition in `cmk/base/sources/_sources.py`, and the SNMP access
functions whose observable behaviour is pinned by the integration tests in
`tests/integration/cmk_base/snmp/test_snmp.py`.

The Python classes in `_sources.py` are embedded as Lean structures holding the
constructor arguments that their methods read; every field of such an object is
assigned once in `__init__` and declared `Final`, so the methods are embedded
as pure functions of the structure.  Types imported by `_sources.py` from
modules that are not part of the visible source (`cmk.fetchers.filecache`,
`cmk.fetchers`, `cmk.checkengine.fetcher`) are modelled from the specification;
each such definition carries a doc comment starting with `Modelled from the
spec:`.
-/

namespace Checkmk

/-- Host names are plain strings (`cmk.utils.hostaddress.HostName`). -/
abbrev HostName := String

/-- Host addresses are plain strings (`cmk.utils.hostaddress.HostAddress`). -/
abbrev HostAddress := String

/-- Raw fetched payload, a byte string (`AgentRawData` / `SNMPRawData`). -/
abbrev RawData := List Nat

/-- `FetcherType` tags from `cmk.checkengine.fetcher`, as used in
`_sources.py` (one class-level constant per Source variant). -/
inductive FetcherType where
  | SNMP
  | IPMI
  | PROGRAM
  | PUSH_AGENT
  | TCP
  | SPECIAL_AGENT
  | PIGGYBACK
  | NONE
deriving DecidableEq

/-- `SourceType` from `cmk.checkengine.fetcher`: a monitored host versus a
management controller (BMC). -/
inductive SourceType where
  | HOST
  | MANAGEMENT
deriving DecidableEq

/-- `SourceInfo` from `cmk.checkengine.fetcher`: identity of one fetch
operation, exactly the five components `_sources.py` passes to its
constructor. -/
structure SourceInfo where
  hostname : HostName
  ipaddress : Option HostAddress
  ident : String
  fetcher_type : FetcherType
  source_type : SourceType
deriving DecidableEq

/-- Modelled from the spec: `MaxAge` (from `cmk.fetchers.filecache`, not in
src) is either a bounded duration or "unlimited" (cache entries never
expire). -/
inductive MaxAge where
  | unlimited
  | bounded (seconds : Nat)
deriving DecidableEq

/-- Modelled from the spec: `FileCacheMode` (from `cmk.fetchers.filecache`,
not in src) is one of DISABLED (never read or write), READ (consult cache,
never write back), READ_WRITE (normal operation). -/
inductive FileCacheMode where
  | DISABLED
  | READ
  | READ_WRITE
deriving DecidableEq

/-- Modelled from the spec: `FileCacheOptions` (from `cmk.fetchers.filecache`,
not in src) is the run-wide configuration: whether outdated entries may still
be used, a TCP-only "use only cache" refinement, whether only the cache may be
consulted, and whether caching is globally disabled. -/
structure FileCacheOptions where
  use_outdated : Bool
  tcp_use_only_cache : Bool
  use_only_cache : Bool
  disabled : Bool
deriving DecidableEq

/-- Modelled from the spec: `FileCacheOptions.file_cache_mode()` derives the
run-wide mode for sources without a per-source ceiling: DISABLED when caching
is globally disabled, otherwise READ_WRITE (normal operation). -/
def FileCacheOptions.file_cache_mode (o : FileCacheOptions) : FileCacheMode :=
  if o.disabled then FileCacheMode.DISABLED else FileCacheMode.READ_WRITE

/-- `NoFetcherError` from `cmk.fetchers`: the two failure reasons of the
no-fetcher variant. -/
inductive NoFetcherError where
  | NO_FETCHER
  | MISSING_IP
deriving DecidableEq

/-- The fetchers a Source can produce.  `NoFetcher` is constructed directly in
`_sources.py`; the remaining fetchers are built by `config_cache.make_*`
factory methods outside the visible source, so the embedding records which
factory was invoked together with the per-source arguments `_sources.py`
passes to it (the `config_cache` handle and other per-run constants such as
`scan_config`, `selected_sections`, `backend_override`, the stored-walk and
walk-cache paths and `tls_config` are fixed for a run and omitted). -/
inductive Fetcher where
  | NoFetcher (reason : NoFetcherError)
  | snmp_fetcher (host_name : HostName) (ipaddress : HostAddress) (source_type : SourceType)
  | ipmi_fetcher (host_name : HostName) (ipaddress : HostAddress)
  | program_fetcher (host_name : HostName) (ipaddress : Option HostAddress) (program : String)
  | tcp_fetcher (host_name : HostName) (ipaddress : HostAddress)
  | special_agent_fetcher (cmdline : String) (stdin : Option String)
  | piggyback_fetcher (host_name : HostName) (ipaddress : Option HostAddress)
deriving DecidableEq

/-- The file caches a Source can produce: `SNMPFileCache` and `AgentFileCache`
record exactly the constructor arguments `_sources.py` passes; `NoCache` is
the no-op cache singleton `_NO_CACHE`. -/
inductive FileCache where
  | SNMPFileCache (path_template : String) (max_age : MaxAge) (simulation : Bool)
      (use_only_cache : Bool) (file_cache_mode : FileCacheMode)
  | AgentFileCache (path_template : String) (max_age : MaxAge) (simulation : Bool)
      (use_only_cache : Bool) (file_cache_mode : FileCacheMode)
  | NoCache
deriving DecidableEq

/-- The cache path template of a persistent file cache (`none` for the no-op
cache, which has no path). -/
def FileCache.path : FileCache → Option String
  | .SNMPFileCache p _ _ _ _ => some p
  | .AgentFileCache p _ _ _ _ => some p
  | .NoCache => none

/-- The max-age of a persistent file cache. -/
def FileCache.maxAge : FileCache → Option MaxAge
  | .SNMPFileCache _ a _ _ _ => some a
  | .AgentFileCache _ a _ _ _ => some a
  | .NoCache => none

/-- The use-only-cache flag of a persistent file cache. -/
def FileCache.useOnlyCache : FileCache → Option Bool
  | .SNMPFileCache _ _ _ u _ => some u
  | .AgentFileCache _ _ _ u _ => some u
  | .NoCache => none

/-- The mode of a persistent file cache. -/
def FileCache.mode : FileCache → Option FileCacheMode
  | .SNMPFileCache _ _ _ _ m => some m
  | .AgentFileCache _ _ _ _ m => some m
  | .NoCache => none

/-- Models Python `os.path.join` for the path components used in
`_sources.py`: every component after the first is a relative name (an ident, a
mode placeholder, a host name or `agent_output`), so joining concatenates the
components with `/` separators. -/
def ospath_join (parts : List String) : String :=
  String.intercalate "/" parts

/-! ### Source variants (`cmk/base/sources/_sources.py`) -/

/-- `SNMPSource.__init__` fields read by `source_info` and `file_cache`
(fetcher-only per-run constants omitted, see `Fetcher`). -/
structure SNMPSource where
  host_name : HostName
  ipaddress : HostAddress
  max_age : MaxAge
  file_cache_path : String
deriving DecidableEq

def SNMPSource.fetcher_type : FetcherType := FetcherType.SNMP

def SNMPSource.source_type : SourceType := SourceType.HOST

def SNMPSource.source_info (s : SNMPSource) : SourceInfo :=
  { hostname := s.host_name
    ipaddress := some s.ipaddress
    ident := "snmp"
    fetcher_type := SNMPSource.fetcher_type
    source_type := SNMPSource.source_type }

def SNMPSource.fetcher (s : SNMPSource) : Fetcher :=
  Fetcher.snmp_fetcher s.host_name s.ipaddress SNMPSource.source_type

def SNMPSource.file_cache (s : SNMPSource) (simulation : Bool)
    (file_cache_options : FileCacheOptions) : FileCache :=
  FileCache.SNMPFileCache
    (ospath_join [s.file_cache_path, s.source_info.ident, "\x7bmode\x7d", s.host_name])
    s.max_age
    simulation
    file_cache_options.use_only_cache
    file_cache_options.file_cache_mode

/-- `MgmtSNMPSource.__init__` fields read by `source_info` and
`file_cache`. -/
structure MgmtSNMPSource where
  host_name : HostName
  ipaddress : HostAddress
  max_age : MaxAge
  file_cache_path : String
deriving DecidableEq

def MgmtSNMPSource.fetcher_type : FetcherType := FetcherType.SNMP

def MgmtSNMPSource.source_type : SourceType := SourceType.MANAGEMENT

def MgmtSNMPSource.source_info (s : MgmtSNMPSource) : SourceInfo :=
  { hostname := s.host_name
    ipaddress := some s.ipaddress
    ident := "mgmt_snmp"
    fetcher_type := MgmtSNMPSource.fetcher_type
    source_type := MgmtSNMPSource.source_type }

def MgmtSNMPSource.fetcher (s : MgmtSNMPSource) : Fetcher :=
  Fetcher.snmp_fetcher s.host_name s.ipaddress MgmtSNMPSource.source_type

def MgmtSNMPSource.file_cache (s : MgmtSNMPSource) (simulation : Bool)
    (file_cache_options : FileCacheOptions) : FileCache :=
  FileCache.SNMPFileCache
    (ospath_join [s.file_cache_path, s.source_info.ident, "\x7bmode\x7d", s.host_name])
    s.max_age
    simulation
    file_cache_options.use_only_cache
    file_cache_options.file_cache_mode

/-- `IPMISource.__init__` fields read by `source_info` and `file_cache`. -/
structure IPMISource where
  host_name : HostName
  ipaddress : HostAddress
  max_age : MaxAge
  file_cache_path : String
deriving DecidableEq

def IPMISource.fetcher_type : FetcherType := FetcherType.IPMI

def IPMISource.source_type : SourceType := SourceType.MANAGEMENT

def IPMISource.source_info (s : IPMISource) : SourceInfo :=
  { hostname := s.host_name
    ipaddress := some s.ipaddress
    ident := "mgmt_ipmi"
    fetcher_type := IPMISource.fetcher_type
    source_type := IPMISource.source_type }

def IPMISource.fetcher (s : IPMISource) : Fetcher :=
  Fetcher.ipmi_fetcher s.host_name s.ipaddress

def IPMISource.file_cache (s : IPMISource) (simulation : Bool)
    (file_cache_options : FileCacheOptions) : FileCache :=
  FileCache.AgentFileCache
    (ospath_join [s.file_cache_path, s.source_info.ident, s.host_name])
    s.max_age
    simulation
    file_cache_options.use_only_cache
    file_cache_options.file_cache_mode

/-- `ProgramSource.__init__` fields read by `source_info`, `fetcher` and
`file_cache`. -/
structure ProgramSource where
  host_name : HostName
  ipaddress : Option HostAddress
  program : String
  max_age : MaxAge
  file_cache_path : String
deriving DecidableEq

def ProgramSource.fetcher_type : FetcherType := FetcherType.PROGRAM

def ProgramSource.source_type : SourceType := SourceType.HOST

def ProgramSource.source_info (s : ProgramSource) : SourceInfo :=
  { hostname := s.host_name
    ipaddress := s.ipaddress
    ident := "agent"
    fetcher_type := ProgramSource.fetcher_type
    source_type := ProgramSource.source_type }

def ProgramSource.fetcher (s : ProgramSource) : Fetcher :=
  Fetcher.program_fetcher s.host_name s.ipaddress s.program

def ProgramSource.file_cache (s : ProgramSource) (simulation : Bool)
    (file_cache_options : FileCacheOptions) : FileCache :=
  FileCache.AgentFileCache
    (ospath_join [s.file_cache_path, s.host_name])
    s.max_age
    simulation
    file_cache_options.use_only_cache
    file_cache_options.file_cache_mode

/-- `PushAgentSource.__init__` fields (this variant takes no
`config_cache`). -/
structure PushAgentSource where
  host_name : HostName
  ipaddress : Option HostAddress
  max_age : MaxAge
  file_cache_path : String
deriving DecidableEq

def PushAgentSource.fetcher_type : FetcherType := FetcherType.PUSH_AGENT

def PushAgentSource.source_type : SourceType := SourceType.HOST

def PushAgentSource.source_info (s : PushAgentSource) : SourceInfo :=
  { hostname := s.host_name
    ipaddress := s.ipaddress
    ident := "push-agent"
    fetcher_type := PushAgentSource.fetcher_type
    source_type := PushAgentSource.source_type }

def PushAgentSource.fetcher (_s : PushAgentSource) : Fetcher :=
  Fetcher.NoFetcher NoFetcherError.NO_FETCHER

def PushAgentSource.file_cache (s : PushAgentSource) (simulation : Bool)
    (file_cache_options : FileCacheOptions) : FileCache :=
  FileCache.AgentFileCache
    (ospath_join [s.file_cache_path, s.source_info.ident, s.host_name, "agent_output"])
    (if simulation || file_cache_options.use_outdated then MaxAge.unlimited else s.max_age)
    simulation
    true
    (if file_cache_options.disabled then FileCacheMode.DISABLED else FileCacheMode.READ)

/-- `TCPSource.__init__` fields read by `source_info` and `file_cache`. -/
structure TCPSource where
  host_name : HostName
  ipaddress : HostAddress
  max_age : MaxAge
  file_cache_path : String
deriving DecidableEq

def TCPSource.fetcher_type : FetcherType := FetcherType.TCP

def TCPSource.source_type : SourceType := SourceType.HOST

def TCPSource.source_info (s : TCPSource) : SourceInfo :=
  { hostname := s.host_name
    ipaddress := some s.ipaddress
    ident := "agent"
    fetcher_type := TCPSource.fetcher_type
    source_type := TCPSource.source_type }

def TCPSource.fetcher (s : TCPSource) : Fetcher :=
  Fetcher.tcp_fetcher s.host_name s.ipaddress

def TCPSource.file_cache (s : TCPSource) (simulation : Bool)
    (file_cache_options : FileCacheOptions) : FileCache :=
  FileCache.AgentFileCache
    (ospath_join [s.file_cache_path, s.host_name])
    s.max_age
    simulation
    (file_cache_options.tcp_use_only_cache || file_cache_options.use_only_cache)
    file_cache_options.file_cache_mode

/-- `SpecialAgentSource.__init__` fields read by `source_info`, `fetcher` and
`file_cache`. -/
structure SpecialAgentSource where
  host_name : HostName
  ipaddress : Option HostAddress
  max_age : MaxAge
  agent_name : String
  stdin : Option String
  cmdline : String
  file_cache_path : String
deriving DecidableEq

def SpecialAgentSource.fetcher_type : FetcherType := FetcherType.SPECIAL_AGENT

def SpecialAgentSource.source_type : SourceType := SourceType.HOST

def SpecialAgentSource.source_info (s : SpecialAgentSource) : SourceInfo :=
  { hostname := s.host_name
    ipaddress := s.ipaddress
    ident := "special_" ++ s.agent_name
    fetcher_type := SpecialAgentSource.fetcher_type
    source_type := SpecialAgentSource.source_type }

def SpecialAgentSource.fetcher (s : SpecialAgentSource) : Fetcher :=
  Fetcher.special_agent_fetcher s.cmdline s.stdin

def SpecialAgentSource.file_cache (s : SpecialAgentSource) (simulation : Bool)
    (file_cache_options : FileCacheOptions) : FileCache :=
  FileCache.AgentFileCache
    (ospath_join [s.file_cache_path, s.source_info.ident, s.host_name])
    s.max_age
    simulation
    file_cache_options.use_only_cache
    file_cache_options.file_cache_mode

/-- `PiggybackSource.__init__` fields read by `source_info` and `fetcher`. -/
structure PiggybackSource where
  host_name : HostName
  ipaddress : Option HostAddress
deriving DecidableEq

def PiggybackSource.fetcher_type : FetcherType := FetcherType.PIGGYBACK

def PiggybackSource.source_type : SourceType := SourceType.HOST

def PiggybackSource.source_info (s : PiggybackSource) : SourceInfo :=
  { hostname := s.host_name
    ipaddress := s.ipaddress
    ident := "piggyback"
    fetcher_type := PiggybackSource.fetcher_type
    source_type := PiggybackSource.source_type }

def PiggybackSource.fetcher (s : PiggybackSource) : Fetcher :=
  Fetcher.piggyback_fetcher s.host_name s.ipaddress

def PiggybackSource.file_cache (_s : PiggybackSource) (_simulation : Bool)
    (_file_cache_options : FileCacheOptions) : FileCache :=
  FileCache.NoCache

/-- `MissingIPSource.__init__` fields (its `ipaddress` parameter is typed
`None`, so the embedded structure carries no address). -/
structure MissingIPSource where
  host_name : HostName
  ident : String
deriving DecidableEq

def MissingIPSource.fetcher_type : FetcherType := FetcherType.NONE

def MissingIPSource.source_type : SourceType := SourceType.HOST

def MissingIPSource.source_info (s : MissingIPSource) : SourceInfo :=
  { hostname := s.host_name
    ipaddress := none
    ident := s.ident
    fetcher_type := MissingIPSource.fetcher_type
    source_type := MissingIPSource.source_type }

def MissingIPSource.fetcher (_s : MissingIPSource) : Fetcher :=
  Fetcher.NoFetcher NoFetcherError.MISSING_IP

def MissingIPSource.file_cache (_s : MissingIPSource) (_simulation : Bool)
    (_file_cache_options : FileCacheOptions) : FileCache :=
  FileCache.NoCache

/-- `MissingSourceSource.__init__` fields. -/
structure MissingSourceSource where
  host_name : HostName
  ipaddress : Option HostAddress
  ident : String
deriving DecidableEq

def MissingSourceSource.fetcher_type : FetcherType := FetcherType.NONE

def MissingSourceSource.source_type : SourceType := SourceType.HOST

def MissingSourceSource.source_info (s : MissingSourceSource) : SourceInfo :=
  { hostname := s.host_name
    ipaddress := s.ipaddress
    ident := s.ident
    fetcher_type := MissingSourceSource.fetcher_type
    source_type := MissingSourceSource.source_type }

def MissingSourceSource.fetcher (_s : MissingSourceSource) : Fetcher :=
  Fetcher.NoFetcher NoFetcherError.NO_FETCHER

def MissingSourceSource.file_cache (_s : MissingSourceSource) (_simulation : Bool)
    (_file_cache_options : FileCacheOptions) : FileCache :=
  FileCache.NoCache

/-! ### The closed set of Source variants and their method-call semantics -/

/-- The polymorphic `Source` abstraction of `_sources.py` as a closed tagged
variant over the ten implementing classes. -/
inductive Source where
  | snmp (s : SNMPSource)
  | mgmt_snmp (s : MgmtSNMPSource)
  | ipmi (s : IPMISource)
  | program (s : ProgramSource)
  | push_agent (s : PushAgentSource)
  | tcp (s : TCPSource)
  | special_agent (s : SpecialAgentSource)
  | piggyback (s : PiggybackSource)
  | missing_ip (s : MissingIPSource)
  | missing_source (s : MissingSourceSource)
deriving DecidableEq

def Source.source_info : Source → SourceInfo
  | .snmp s => s.source_info
  | .mgmt_snmp s => s.source_info
  | .ipmi s => s.source_info
  | .program s => s.source_info
  | .push_agent s => s.source_info
  | .tcp s => s.source_info
  | .special_agent s => s.source_info
  | .piggyback s => s.source_info
  | .missing_ip s => s.source_info
  | .missing_source s => s.source_info

def Source.fetcher : Source → Fetcher
  | .snmp s => s.fetcher
  | .mgmt_snmp s => s.fetcher
  | .ipmi s => s.fetcher
  | .program s => s.fetcher
  | .push_agent s => s.fetcher
  | .tcp s => s.fetcher
  | .special_agent s => s.fetcher
  | .piggyback s => s.fetcher
  | .missing_ip s => s.fetcher
  | .missing_source s => s.fetcher

def Source.file_cache : Source → Bool → FileCacheOptions → FileCache
  | .snmp s, simulation, o => s.file_cache simulation o
  | .mgmt_snmp s, simulation, o => s.file_cache simulation o
  | .ipmi s, simulation, o => s.file_cache simulation o
  | .program s, simulation, o => s.file_cache simulation o
  | .push_agent s, simulation, o => s.file_cache simulation o
  | .tcp s, simulation, o => s.file_cache simulation o
  | .special_agent s, simulation, o => s.file_cache simulation o
  | .piggyback s, simulation, o => s.file_cache simulation o
  | .missing_ip s, simulation, o => s.file_cache simulation o
  | .missing_source s, simulation, o => s.file_cache simulation o

/-- One observable event in the life of a Source object: a call to one of its
three methods, or the completion of a fetch on the fetcher it handed out
(with its success flag).  Used to state that the methods are insensitive to
call count and fetch history. -/
inductive MethodCall where
  | source_info_call
  | fetcher_call
  | file_cache_call (simulation : Bool) (o : FileCacheOptions)
  | fetch_completed (success : Bool)
deriving DecidableEq

/-- The value returned by one method call (`unit` for the pure
history event `fetch_completed`, which returns nothing to the Source). -/
inductive MethodResult where
  | info (i : SourceInfo)
  | fetch (f : Fetcher)
  | cache (c : FileCache)
  | unit
deriving DecidableEq

/-- One method invocation on a Source object, state-passing style.  Every
field of every Source class is assigned once in `__init__` and declared
`Final`, and no method of `_sources.py` assigns any attribute, so each call
returns the value computed from the fields and leaves the object unchanged;
completed fetches also write nothing back into the Source. -/
def Source.invoke (s : Source) : MethodCall → MethodResult × Source
  | .source_info_call => (.info s.source_info, s)
  | .fetcher_call => (.fetch s.fetcher, s)
  | .file_cache_call simulation o => (.cache (s.file_cache simulation o), s)
  | .fetch_completed _ => (.unit, s)

/-- The Source object after a sequence of method calls and fetch events. -/
def Source.run (s : Source) : List MethodCall → Source
  | [] => s
  | c :: cs => ((s.invoke c).2).run cs

/-! ### Behaviour of the no-op cache and the no-fetcher (modelled) -/

/-- A persisted cache store, mapping cache paths to payloads. -/
abbrev CacheStore := List (String × RawData)

/-- Modelled from the spec: a `read` on the no-op cache (`NoCache` in
`cmk.fetchers.filecache`, not in src) always misses — it returns the absent
result whatever the store holds. -/
def noop_cache_read (_store : CacheStore) : Option RawData :=
  none

/-- Modelled from the spec: a `write` on the no-op cache discards its input
and leaves no persisted state — the store is returned unchanged. -/
def noop_cache_write (store : CacheStore) (_data : RawData) : CacheStore :=
  store

/-- Outcome of one `fetch()` call. -/
inductive FetchResult where
  | ok (data : RawData)
  | err (reason : NoFetcherError)
deriving DecidableEq

/-- Modelled from the spec: `NoFetcher.fetch` (in `cmk.fetchers`, not in src)
never attempts I/O and immediately fails with the reason it was constructed
with.  The second component counts the I/O operations performed: zero. -/
def no_fetcher_fetch (reason : NoFetcherError) : FetchResult × Nat :=
  (FetchResult.err reason, 0)

/-! ### SNMP access functions

The module `cmk_base/snmp.py` is not part of the visible source; only its
integration tests (`tests/integration/cmk_base/snmp/test_snmp.py`) are.  The
functions below are modelled from the specification, with their observable
behaviour pinned where the tests fix it.  The network / backend is abstracted
as a transport oracle mapping an OID to an outcome; the functions additionally
return the number of transport calls they performed, so "no network I/O" and
"never retried" are stated as bounds on that count. -/

/-- SNMP credentials: a community string, or the v3 tuple of security level,
authentication protocol, security name and authentication key (as in the
`SNMPHostConfig` values built by the tests). -/
inductive SNMPCredentials where
  | community (s : String)
  | v3 (security_level auth_protocol security_name auth_key : String)
deriving DecidableEq

/-- Per-host SNMP parameters, the fields of `snmp_utils.SNMPHostConfig` as
constructed throughout the tests (`timing` and `oid_range_limits` are empty in
every test and consumed only inside the backends, so they are omitted). -/
structure SNMPHostConfig where
  is_ipv6_primary : Bool
  ipaddress : HostAddress
  hostname : HostName
  credentials : SNMPCredentials
  port : Nat
  is_bulkwalk_host : Bool
  is_snmpv2or3_without_bulkwalk_host : Bool
  bulk_walk_size_of : Nat
deriving DecidableEq

/-- The transport-level failure kinds of the spec taxonomy: unresolvable
address, authentication/credential rejection, timeout with no response. -/
inductive SNMPFailKind where
  | unresolvable
  | authRejected
  | timeoutNoResponse
deriving DecidableEq

/-- Outcome of one GET (or GET-NEXT) request on the transport: a decoded
textual value, the negative "object does not exist" result, or a transport
failure. -/
inductive GetOutcome where
  | value (v : String)
  | noSuchObject
  | fail (k : SNMPFailKind)
deriving DecidableEq

/-- Outcome of walking one column subtree on the transport: the list of
(index suffix, decoded value) pairs, or a transport failure. -/
inductive WalkOutcome where
  | rows (r : List (String × String))
  | fail (k : SNMPFailKind)
deriving DecidableEq

/-- Result of `get_single_oid`: the raised format error (`MKGeneralException`
whose message states the OID does not begin with a `.`), the absent result
`None`, or a textual value. -/
inductive SingleOidResult where
  | formatError
  | absent
  | value (v : String)
deriving DecidableEq

/-- The single-OID cache: an in-memory mapping from (hostname, OID) to the
last resolved textual value, scoped to one run. -/
abbrev SingleOidCache := List ((HostName × String) × String)

/-- Lookup in the single-OID cache. -/
def lookup_single_oid : SingleOidCache → HostName → String → Option String
  | [], _, _ => none
  | ((h, o), v) :: rest, hostname, oid =>
      if h = hostname ∧ o = oid then some v else lookup_single_oid rest hostname oid

/-- An OID is fully qualified when its first character is a dot
(`oid[0] != '.'` is the check `get_single_oid` performs). -/
def oid_fully_qualified (oid : String) : Bool :=
  match oid.data with
  | [] => false
  | c :: _ => c = '.'

/-- Modelled from the spec: `get_single_oid` (in `cmk_base/snmp.py`, not in
src) validates that the OID is fully qualified, failing with a format error
before any network access otherwise; consults the single-OID cache first; on a
miss performs one GET over the transport (a GET-NEXT for a wildcarded OID is
subsumed in the transport oracle) and caches a successful textual value.  As
the integration tests pin, transport failures — wrong credentials,
unresolvable address — and the nonexistent object all surface as the same
absent result `None`.  Returns the result, the updated cache, and the number
of transport calls performed. -/
def get_single_oid (cfg : SNMPHostConfig) (oid : String) (cache : SingleOidCache)
    (transport : String → GetOutcome) : SingleOidResult × SingleOidCache × Nat :=
  if oid_fully_qualified oid then
    match lookup_single_oid cache cfg.hostname oid with
    | some v => (.value v, cache, 0)
    | none =>
        match transport oid with
        | .value v => (.value v, ((cfg.hostname, oid), v) :: cache, 1)
        | .noSuchObject => (.absent, cache, 1)
        | .fail _ => (.absent, cache, 1)
  else
    (.formatError, cache, 0)

/-- The typed error (`MKSNMPError`) raised by `get_snmp_table` on a transport
failure, as the tests distinguish it by message: "Unknown host" / "Failed to
initiate SNMP" for an unresolvable address, "Timeout: No Response" / "SNMP
query timed out" for no response. -/
inductive MKSNMPError where
  | unknownHost
  | snmpTimeout
deriving DecidableEq

/-- Modelled from the spec and pinned by the tests: how a transport failure of
a table walk surfaces as an `MKSNMPError`.  A credential rejection under SNMP
v1/v2c produces no response, so the tests observe it as the timeout error. -/
def table_error_of : SNMPFailKind → MKSNMPError
  | .unresolvable => MKSNMPError.unknownHost
  | .authRejected => MKSNMPError.snmpTimeout
  | .timeoutNoResponse => MKSNMPError.snmpTimeout

/-- Result of `get_snmp_table`: the per-column walk results, or a raised
`MKSNMPError`. -/
inductive TableResult where
  | ok (cols : List (List (String × String)))
  | error (e : MKSNMPError)
deriving DecidableEq

/-- Modelled from the spec: `get_snmp_table` (in `cmk_base/snmp.py`, not in
src) walks each requested column over the transport; the first transport
failure aborts the fetch and is raised as the typed `MKSNMPError`, with no
retry.  Row assembly by matching index suffixes across columns is outside the
claims settled here and is kept as the list of per-column walks.  Returns the
result and the number of transport calls performed. -/
def get_snmp_table (cfg : SNMPHostConfig) (columns : List String)
    (transport : String → WalkOutcome) : TableResult × Nat :=
  match columns with
  | [] => (.ok [], 0)
  | c :: cs =>
      match transport c with
      | .fail k => (.error (table_error_of k), 1)
      | .rows r =>
          match get_snmp_table cfg cs transport with
          | (.ok rest, n) => (.ok (r :: rest), n + 1)
          | (.error e, n) => (.error e, n + 1)

/-! ## Helper lemmas -/

/-- No method call mutates a Source object: each field is assigned once in
`__init__` and declared `Final`. -/
theorem Source.invoke_state (s : Source) (c : MethodCall) : (s.invoke c).2 = s := by
  cases c <;> rfl

/-- A Source object is unchanged by any sequence of method calls and fetch
events. -/
theorem Source.run_state (s : Source) (history : List MethodCall) :
    Source.run s history = s := by
  induction history with
  | nil => rfl
  | cons c cs ih =>
      show Source.run (s.invoke c).2 cs = s
      rw [Source.invoke_state]
      exact ih

/-! ## Claims -/

/-- C1: for every combination of the simulation flag and `FileCacheOptions`,
the `FileCache` produced by `PushAgentSource.file_cache` has mode READ when
caching is not globally disabled and DISABLED when it is; it is never
READ_WRITE. -/
theorem C1_push_agent_mode_at_most_read (s : PushAgentSource) (simulation : Bool)
    (o : FileCacheOptions) :
    (s.file_cache simulation o).mode
        = some (if o.disabled then FileCacheMode.DISABLED else FileCacheMode.READ) ∧
    (s.file_cache simulation o).mode ≠ some FileCacheMode.READ_WRITE := by
  refine ⟨rfl, ?_⟩
  cases h : o.disabled <;>
    simp [PushAgentSource.file_cache, FileCache.mode, h]

/-- C1 witness: the mode decision evaluated at a concrete push-agent source,
once with caching enabled and once with caching globally disabled. -/
theorem C1_witness :
    ((PushAgentSource.mk "zeus" none (MaxAge.bounded 60) "base").file_cache false
        ⟨false, false, false, false⟩).mode = some FileCacheMode.READ ∧
    ((PushAgentSource.mk "zeus" none (MaxAge.bounded 60) "base").file_cache false
        ⟨false, false, false, true⟩).mode = some FileCacheMode.DISABLED ∧
    ((PushAgentSource.mk "zeus" none (MaxAge.bounded 60) "base").file_cache true
        ⟨true, true, true, false⟩).mode ≠ some FileCacheMode.READ_WRITE := by
  refine ⟨?_, ?_, ?_⟩
  · simpa using (C1_push_agent_mode_at_most_read
      (PushAgentSource.mk "zeus" none (MaxAge.bounded 60) "base") false
      ⟨false, false, false, false⟩).1
  · simpa using (C1_push_agent_mode_at_most_read
      (PushAgentSource.mk "zeus" none (MaxAge.bounded 60) "base") false
      ⟨false, false, false, true⟩).1
  · exact (C1_push_agent_mode_at_most_read
      (PushAgentSource.mk "zeus" none (MaxAge.bounded 60) "base") true
      ⟨true, true, true, false⟩).2

/-- C2: for every `PushAgentSource`, the max-age of the cache returned by
`file_cache` is unlimited when the simulation flag or
`FileCacheOptions.use_outdated` is set, and the configured max-age of the
source otherwise. -/
theorem C2_push_agent_max_age_widening (s : PushAgentSource) (simulation : Bool)
    (o : FileCacheOptions) :
    (s.file_cache simulation o).maxAge
        = some (if simulation || o.use_outdated then MaxAge.unlimited else s.max_age) :=
  rfl

/-- C3: the `use_only_cache` flag of the produced cache follows the policy
table: always true for push-agent; global OR the TCP-specific option for TCP;
the global option alone for the SNMP, management-SNMP, IPMI, program and
special-agent sources. -/
theorem C3_use_only_cache_policy (simulation : Bool) (o : FileCacheOptions) :
    (∀ s : PushAgentSource, (s.file_cache simulation o).useOnlyCache = some true) ∧
    (∀ s : TCPSource, (s.file_cache simulation o).useOnlyCache
        = some (o.tcp_use_only_cache || o.use_only_cache)) ∧
    (∀ s : SNMPSource, (s.file_cache simulation o).useOnlyCache = some o.use_only_cache) ∧
    (∀ s : MgmtSNMPSource, (s.file_cache simulation o).useOnlyCache = some o.use_only_cache) ∧
    (∀ s : IPMISource, (s.file_cache simulation o).useOnlyCache = some o.use_only_cache) ∧
    (∀ s : ProgramSource, (s.file_cache simulation o).useOnlyCache = some o.use_only_cache) ∧
    (∀ s : SpecialAgentSource, (s.file_cache simulation o).useOnlyCache = some o.use_only_cache) :=
  ⟨fun _ => rfl, fun _ => rfl, fun _ => rfl, fun _ => rfl, fun _ => rfl, fun _ => rfl,
    fun _ => rfl⟩

/-- C4: the file-cache path of every variant is built deterministically from
the base cache directory, the ident where the policy table requires it, an
optional mode segment and the host name: SNMP and management-SNMP use
base/ident/mode-placeholder/host; IPMI and special-agent use base/ident/host;
program and TCP use base/host; push-agent uses base/ident/host/agent_output. -/
theorem C4_file_cache_path_layout (simulation : Bool) (o : FileCacheOptions) :
    (∀ s : SNMPSource, (s.file_cache simulation o).path
        = some (ospath_join [s.file_cache_path, "snmp", "\x7bmode\x7d", s.host_name])) ∧
    (∀ s : MgmtSNMPSource, (s.file_cache simulation o).path
        = some (ospath_join [s.file_cache_path, "mgmt_snmp", "\x7bmode\x7d", s.host_name])) ∧
    (∀ s : IPMISource, (s.file_cache simulation o).path
        = some (ospath_join [s.file_cache_path, "mgmt_ipmi", s.host_name])) ∧
    (∀ s : SpecialAgentSource, (s.file_cache simulation o).path
        = some (ospath_join [s.file_cache_path, "special_" ++ s.agent_name, s.host_name])) ∧
    (∀ s : ProgramSource, (s.file_cache simulation o).path
        = some (ospath_join [s.file_cache_path, s.host_name])) ∧
    (∀ s : TCPSource, (s.file_cache simulation o).path
        = some (ospath_join [s.file_cache_path, s.host_name])) ∧
    (∀ s : PushAgentSource, (s.file_cache simulation o).path
        = some (ospath_join [s.file_cache_path, "push-agent", s.host_name, "agent_output"])) :=
  ⟨fun _ => rfl, fun _ => rfl, fun _ => rfl, fun _ => rfl, fun _ => rfl, fun _ => rfl,
    fun _ => rfl⟩

/-- C5: the piggyback, missing-IP and missing-source variants return the no-op
cache for every simulation flag and options; every read on it misses and every
write is discarded, leaving the store unchanged. -/
theorem C5_noop_cache_sources (simulation : Bool) (o : FileCacheOptions) :
    (∀ s : PiggybackSource, s.file_cache simulation o = FileCache.NoCache) ∧
    (∀ s : MissingIPSource, s.file_cache simulation o = FileCache.NoCache) ∧
    (∀ s : MissingSourceSource, s.file_cache simulation o = FileCache.NoCache) ∧
    (∀ store : CacheStore, noop_cache_read store = none) ∧
    (∀ (store : CacheStore) (data : RawData), noop_cache_write store data = store) :=
  ⟨fun _ => rfl, fun _ => rfl, fun _ => rfl, fun _ => rfl, fun _ _ => rfl⟩

/-- C6: the fetcher of a push-agent source and of a missing-source source is
the no-fetcher with reason NO_FETCHER, the fetcher of a missing-IP source is
the no-fetcher with reason MISSING_IP, and a no-fetcher fetch fails
immediately with exactly its reason while performing zero I/O operations. -/
theorem C6_no_fetcher_reasons (p : PushAgentSource) (m : MissingIPSource)
    (n : MissingSourceSource) :
    p.fetcher = Fetcher.NoFetcher NoFetcherError.NO_FETCHER ∧
    m.fetcher = Fetcher.NoFetcher NoFetcherError.MISSING_IP ∧
    n.fetcher = Fetcher.NoFetcher NoFetcherError.NO_FETCHER ∧
    (∀ r : NoFetcherError, no_fetcher_fetch r = (FetchResult.err r, 0)) :=
  ⟨rfl, rfl, rfl, fun _ => rfl⟩

/-- C7: for every Source variant, any prior history of method calls and fetch
events leaves the object unchanged, so `source_info()`, `fetcher()` and
`file_cache()` return the same result — same identity, same cache path, same
mode decision — on every call. -/
theorem C7_source_methods_pure_idempotent (s : Source) (history : List MethodCall)
    (c : MethodCall) :
    Source.run s history = s ∧
    ((Source.run s history).invoke c).1 = (s.invoke c).1 := by
  refine ⟨Source.run_state s history, ?_⟩
  rw [Source.run_state]

/-- C8: `get_single_oid` called with an OID that does not start with a leading
dot fails with the format error, leaves the single-OID cache unchanged and
performs no transport call. -/
theorem C8_get_single_oid_format_error (cfg : SNMPHostConfig) (oid : String)
    (cache : SingleOidCache) (transport : String → GetOutcome)
    (h : oid_fully_qualified oid = false) :
    get_single_oid cfg oid cache transport = (SingleOidResult.formatError, cache, 0) := by
  simp [get_single_oid, h]

/-- C8 witness: the non-prefixed OID of the integration test, against the test
host configuration, with an empty cache. -/
theorem C8_witness :
    oid_fully_qualified "1.3.6.1.2.1.1.1.0" = false ∧
    get_single_oid ⟨false, "127.0.0.1", "localhost", SNMPCredentials.community "public",
        1337, false, true, 10⟩ "1.3.6.1.2.1.1.1.0" [] (fun _ => GetOutcome.noSuchObject)
      = (SingleOidResult.formatError, [], 0) :=
  ⟨by decide,
    C8_get_single_oid_format_error
      ⟨false, "127.0.0.1", "localhost", SNMPCredentials.community "public", 1337, false,
        true, 10⟩
      "1.3.6.1.2.1.1.1.0" [] (fun _ => GetOutcome.noSuchObject) (by decide)⟩

/-- C9 counterexample: transport failures of `get_single_oid` are not
distinguishable from the negative "object does not exist" result.  With the
host configuration of the unresolvable-address integration test, the fetch on
an unresolvable address returns exactly the same value as the fetch of a
nonexistent object (the absent result `None`), a credential rejection also
returns the absent result, and a credential rejection of a table walk maps to
the very same typed error as a timeout. -/
theorem C9_counterexample :
    (get_single_oid ⟨false, "bla.local", "localhost", SNMPCredentials.community "public",
          1337, true, true, 10⟩ ".1.3.6.1.2.1.1.7.0" []
          (fun _ => GetOutcome.fail SNMPFailKind.unresolvable)).1
      = (get_single_oid ⟨false, "bla.local", "localhost", SNMPCredentials.community "public",
          1337, true, true, 10⟩ ".1.3.6.1.2.1.1.7.0" []
          (fun _ => GetOutcome.noSuchObject)).1 ∧
    (get_single_oid ⟨false, "127.0.0.1", "localhost", SNMPCredentials.community "dingdong",
          1337, false, true, 10⟩ ".1.3.6.1.2.1.1.1.0" []
          (fun _ => GetOutcome.fail SNMPFailKind.authRejected)).1
      = SingleOidResult.absent ∧
    table_error_of SNMPFailKind.authRejected = table_error_of SNMPFailKind.timeoutNoResponse := by
  refine ⟨?_, ?_, rfl⟩ <;> decide

/-- C9 amended: transport failures of `get_snmp_table` are surfaced as a typed
`MKSNMPError`, distinguishable from every successful (in particular empty,
negative) table result, with the unresolvable-address error distinct from the
timeout error but a credential rejection surfacing as the timeout error; a
transport failure aborts the table fetch at once and neither function retries
(at most one transport call per requested column, at most one overall for
`get_single_oid`); `get_single_oid` surfaces every transport failure as the
absent result `None`. -/
theorem C9_amended_failure_surfacing :
    (∀ (cfg : SNMPHostConfig) (rest : List Char) (k : SNMPFailKind),
        (get_single_oid cfg (String.mk ('.' :: rest)) []
            (fun _ => GetOutcome.fail k)).1 = SingleOidResult.absent) ∧
    (∀ (cfg : SNMPHostConfig) (oid : String) (cache : SingleOidCache)
        (t : String → GetOutcome), (get_single_oid cfg oid cache t).2.2 ≤ 1) ∧
    (∀ (cfg : SNMPHostConfig) (c : String) (cs : List String) (k : SNMPFailKind),
        get_snmp_table cfg (c :: cs) (fun _ => WalkOutcome.fail k)
          = (TableResult.error (table_error_of k), 1)) ∧
    (∀ (cfg : SNMPHostConfig) (cols : List String) (t : String → WalkOutcome),
        (get_snmp_table cfg cols t).2 ≤ cols.length) ∧
    table_error_of SNMPFailKind.unresolvable ≠ table_error_of SNMPFailKind.timeoutNoResponse ∧
    table_error_of SNMPFailKind.authRejected = table_error_of SNMPFailKind.timeoutNoResponse ∧
    (∀ (e : MKSNMPError) (cols : List (List (String × String))),
        TableResult.error e ≠ TableResult.ok cols) := by
  refine ⟨?_, ?_, ?_, ?_, by decide, rfl, ?_⟩
  · intro cfg rest k
    simp [get_single_oid, oid_fully_qualified, lookup_single_oid]
  · intro cfg oid cache t
    by_cases h : oid_fully_qualified oid
    · simp only [get_single_oid, h, if_true]
      cases lookup_single_oid cache cfg.hostname oid
      · cases t oid <;> simp
      · simp
    · simp [get_single_oid, h]
  · intro cfg c cs k
    rfl
  · intro cfg cols t
    induction cols with
    | nil => exact Nat.le_refl 0
    | cons c cs ih =>
        show (get_snmp_table cfg (c :: cs) t).2 ≤ cs.length + 1
        unfold get_snmp_table
        cases t c with
        | fail k => exact Nat.succ_le_succ (Nat.zero_le cs.length)
        | rows r =>
            rcases h : get_snmp_table cfg cs t with ⟨res, n⟩
            rw [h] at ih
            cases res <;> simp [h] <;> omega
  · intro e cols
    exact fun h => TableResult.noConfusion h

/-- C9 amended witness: the amended failure surfacing evaluated at concrete
inputs — a timeout on a dotted OID yields the absent result, an unresolvable
walk of one column yields the unknown-host error after exactly one transport
call, and that error differs from the timeout error. -/
theorem C9_witness :
    (get_single_oid ⟨false, "127.0.0.1", "localhost", SNMPCredentials.community "public",
          1337, false, true, 10⟩ (String.mk ('.' :: "1.3.6.1.2.1.1.7.0".data)) []
          (fun _ => GetOutcome.fail SNMPFailKind.timeoutNoResponse)).1
      = SingleOidResult.absent ∧
    get_snmp_table ⟨false, "bla.local", "localhost", SNMPCredentials.community "public",
          1337, false, true, 10⟩ ["1.0"] (fun _ => WalkOutcome.fail SNMPFailKind.unresolvable)
      = (TableResult.error MKSNMPError.unknownHost, 1) ∧
    table_error_of SNMPFailKind.unresolvable ≠ table_error_of SNMPFailKind.timeoutNoResponse :=
  ⟨C9_amended_failure_surfacing.1
      ⟨false, "127.0.0.1", "localhost", SNMPCredentials.community "public", 1337, false,
        true, 10⟩
      "1.3.6.1.2.1.1.7.0".data SNMPFailKind.timeoutNoResponse,
    C9_amended_failure_surfacing.2.2.1
      ⟨false, "bla.local", "localhost", SNMPCredentials.community "public", 1337, false,
        true, 10⟩
      "1.0" [] SNMPFailKind.unresolvable,
    C9_amended_failure_surfacing.2.2.2.2.1⟩

/-- C10: a program source and a TCP source for the same host both carry the
ident "agent" in their `SourceInfo`, and given the same base cache path their
file caches address the same path, base/host with no ident segment — the two
sources of one host share a single cache entry. -/
theorem C10_program_tcp_shared_cache_entry (p : ProgramSource) (t : TCPSource)
    (simulation : Bool) (o : FileCacheOptions)
    (hhost : p.host_name = t.host_name) (hbase : p.file_cache_path = t.file_cache_path) :
    p.source_info.ident = "agent" ∧
    t.source_info.ident = "agent" ∧
    (p.file_cache simulation o).path = (t.file_cache simulation o).path ∧
    (p.file_cache simulation o).path = some (ospath_join [p.file_cache_path, p.host_name]) := by
  refine ⟨rfl, rfl, ?_, rfl⟩
  simp [ProgramSource.file_cache, TCPSource.file_cache, FileCache.path, hhost, hbase]

/-- C10 witness: a concrete program source and TCP source of host "zeus" with
the same base cache path produce caches addressing the identical path
"base/zeus". -/
theorem C10_witness :
    (ProgramSource.mk "zeus" (some "127.0.0.1") "run-agent" (MaxAge.bounded 60)
          "base").source_info.ident = "agent" ∧
    ((ProgramSource.mk "zeus" (some "127.0.0.1") "run-agent" (MaxAge.bounded 60)
          "base").file_cache false ⟨false, false, false, false⟩).path
      = ((TCPSource.mk "zeus" "127.0.0.1" (MaxAge.bounded 60) "base").file_cache false
          ⟨false, false, false, false⟩).path ∧
    ((ProgramSource.mk "zeus" (some "127.0.0.1") "run-agent" (MaxAge.bounded 60)
          "base").file_cache false ⟨false, false, false, false⟩).path = some "base/zeus" := by
  have h := C10_program_tcp_shared_cache_entry
    (ProgramSource.mk "zeus" (some "127.0.0.1") "run-agent" (MaxAge.bounded 60) "base")
    (TCPSource.mk "zeus" "127.0.0.1" (MaxAge.bounded 60) "base")
    false ⟨false, false, false, false⟩ rfl rfl
  refine ⟨h.1, h.2.2.1, ?_⟩
  rw [h.2.2.2]
  decide

end Checkmk
